import Mathlib

/-
Verification of the `nn_hiive` notebook (repository `ga_ml`).

The notebook defines a fitness-wrapper class `CustomFitness`, a fixed
feed-forward architecture 4 -> 10 -> 10 -> 3 (Iris: 4 features, 3 classes),
a weight-reconstruction scheme that slices a flat state vector into
per-layer weight matrices and bias vectors, a `fitness_function` returning
the model's training loss, a `ContinuousOpt` problem built from it, and a
test-evaluation loop recording one test accuracy per algorithm.

External library calls (TensorFlow/Keras model evaluation, the mlrose
optimizers) are modelled as abstract parameters: the development verifies
the notebook's own plumbing, not the libraries.
-/

namespace NNHiive

/-- The list of accepted problem-type labels, inlined in the source as
`['discrete', 'continuous', 'tsp', 'either']` in `CustomFitness.__init__`. -/
def validProblemTypes : List String := ["discrete", "continuous", "tsp", "either"]

/-- A constructed `CustomFitness` wrapper: the three attributes that
`__init__` assigns on `self`.  `σ` is the state-vector type, `κ` the type of
the captured keyword arguments, `ρ` the fitness value type. -/
structure CustomFitness (σ κ ρ : Type) where
  fitness_fn : σ → κ → ρ
  problem_type : String
  kwargs : κ

/-- `CustomFitness.__init__`: raises `Exception("problem_type does not exist.")`
when the label is not one of the four accepted ones, otherwise assigns the
three attributes.  The fallible constructor is embedded as `Except`. -/
def customFitnessInit {σ κ ρ : Type} (fitness_fn : σ → κ → ρ) (problem_type : String)
    (kwargs : κ) : Except String (CustomFitness σ κ ρ) :=
  if problem_type ∉ validProblemTypes then
    Except.error "problem_type does not exist."
  else
    Except.ok ⟨fitness_fn, problem_type, kwargs⟩

/-- Construction with the `problem_type` argument omitted: the source's
parameter default is `problem_type='continuous'`. -/
def customFitnessInitDefault {σ κ ρ : Type} (fitness_fn : σ → κ → ρ) (kwargs : κ) :
    Except String (CustomFitness σ κ ρ) :=
  customFitnessInit fitness_fn "continuous" kwargs

/-- The default the class docstring announces (`problem_type: string,
default: 'either'`), which differs from the code's parameter default. -/
def docstringDefaultProblemType : String := "either"

/-- `CustomFitness.evaluate`: `fitness = self.fitness_fn(state, **self.kwargs);
return fitness`. -/
def CustomFitness.evaluate {σ κ ρ : Type} (self : CustomFitness σ κ ρ) (state : σ) : ρ :=
  self.fitness_fn state self.kwargs

/-- `CustomFitness.evaluate` as a state-passing method call: the pair of the
returned fitness and the receiver object after the call.  The method body
assigns nothing to `self`, so the post-call object is the receiver itself. -/
def CustomFitness.evaluateS {σ κ ρ : Type} (self : CustomFitness σ κ ρ) (state : σ) :
    ρ × CustomFitness σ κ ρ :=
  let fitness := self.fitness_fn state self.kwargs
  (fitness, self)

/-- `CustomFitness.get_prob_type`: `return self.problem_type`. -/
def CustomFitness.get_prob_type {σ κ ρ : Type} (self : CustomFitness σ κ ρ) : String :=
  self.problem_type

/-- Claim C1: a wrapper constructed from inner function `f` and keyword
arguments `kw` evaluates any state to exactly `f state kw`. -/
theorem customFitness_evaluate_returns_inner {σ κ ρ : Type} (f : σ → κ → ρ)
    (pt : String) (kw : κ) (cf : CustomFitness σ κ ρ)
    (h : customFitnessInit f pt kw = Except.ok cf) (state : σ) :
    cf.evaluate state = f state kw := by
  unfold customFitnessInit at h
  split at h
  · cases h
  · cases h
    rfl

/-- Witness for C1 at a concrete wrapper: inner function `fun s _ => s + 1`,
label `"either"`, state `5`. -/
theorem customFitness_evaluate_returns_inner_witness :
    (⟨fun (s : Nat) (_ : Unit) => s + 1, "either", ()⟩ : CustomFitness Nat Unit Nat).evaluate 5
      = (fun (s : Nat) (_ : Unit) => s + 1) 5 () :=
  customFitness_evaluate_returns_inner (fun s _ => s + 1) "either" ()
    ⟨fun s _ => s + 1, "either", ()⟩ (by simp [customFitnessInit, validProblemTypes]) 5

/-- Claim C2: construction raises if and only if the label is outside
`{discrete, continuous, tsp, either}`, and succeeds on every label inside. -/
theorem customFitnessInit_error_iff {σ κ ρ : Type} (f : σ → κ → ρ) (kw : κ) (pt : String) :
    ((∃ e, customFitnessInit f pt kw = Except.error e) ↔ pt ∉ validProblemTypes)
    ∧ ((∃ cf, customFitnessInit f pt kw = Except.ok cf) ↔ pt ∈ validProblemTypes) := by
  unfold customFitnessInit
  by_cases h : pt ∈ validProblemTypes <;> simp [h]

/-- Per-layer `(input_dim, units)` of `build_model()`: `Dense(10, input_dim=4)`,
`Dense(10)`, `Dense(3)` — Iris has 4 features and 3 one-hot classes, so the
architecture is 4 -> 10 -> 10 -> 3.  A Keras `Dense` layer's weight matrix has
shape `(input_dim, units)` and its bias vector shape `(units,)`. -/
def layerDims : List (Nat × Nat) := [(4, 10), (10, 10), (10, 3)]

/-- `np.prod(layer.get_weights()[0].shape)`: size of the layer's weight matrix. -/
def weightCount (d : Nat × Nat) : Nat := d.1 * d.2

/-- `np.prod(layer.get_weights()[1].shape)`: size of the layer's bias vector. -/
def biasCount (d : Nat × Nat) : Nat := d.2

/-- `total_weights = sum(np.prod(w.shape) + np.prod(b.shape) for layer in model.layers)`. -/
def total_weights : Nat := (layerDims.map (fun d => weightCount d + biasCount d)).sum

/-- The slicing loop of `fitness_function`: `start = 0`, then per layer take
`weights[start:start+prod(w_shape)]` as the weight matrix, advance `start`,
take `weights[start:start+prod(b_shape)]` as the biases, advance `start`.
The reshape to `(in, out)` is a size-preserving re-indexing, so each slice is
kept as the flat list of its entries. -/
def reconstructLoop {α : Type} (weights : List α) : List (Nat × Nat) → Nat → List (List α × List α)
  | [], _ => []
  | d :: rest, start =>
      ((weights.drop start).take (weightCount d),
        (weights.drop (start + weightCount d)).take (biasCount d))
        :: reconstructLoop weights rest (start + weightCount d + biasCount d)

/-- The slicing loop of the test-evaluation cell, which reconstructs
`results[algo]["state"]` into per-layer weights with the same statements. -/
def testReconstructLoop {α : Type} (weights : List α) : List (Nat × Nat) → Nat → List (List α × List α)
  | [], _ => []
  | d :: rest, start =>
      ((weights.drop start).take (weightCount d),
        (weights.drop (start + weightCount d)).take (biasCount d))
        :: testReconstructLoop weights rest (start + weightCount d + biasCount d)

/-- The `(start, length)` index ranges of the slices the reconstruction loop
consumes, in consumption order. -/
def sliceRangesAux : List (Nat × Nat) → Nat → List (Nat × Nat)
  | [], _ => []
  | d :: rest, start =>
      (start, weightCount d) :: (start + weightCount d, biasCount d)
        :: sliceRangesAux rest (start + weightCount d + biasCount d)

/-- The slice ranges for the fixed architecture, starting at index 0. -/
def sliceRanges : List (Nat × Nat) := sliceRangesAux layerDims 0

/-- Whether index `i` falls inside range `r = (start, length)`. -/
def containsIdx (r : Nat × Nat) (i : Nat) : Bool :=
  decide (r.1 ≤ i) && decide (i < r.1 + r.2)

/-- How many of the reconstruction slices contain index `i`. -/
def countContaining (i : Nat) : Nat := sliceRanges.countP (fun r => containsIdx r i)

/-- The two datasets the notebook evaluates on after the train/test split. -/
inductive Dataset
  | train
  | test
deriving DecidableEq

/-- The `(loss, accuracy)` pair returned by Keras `model.evaluate`. -/
structure KerasEvalOutput where
  loss : Float
  accuracy : Float

/-- The type of the abstract Keras evaluation: for a dataset and the per-layer
`[weights, biases]` installed by `set_weights`, the `(loss, accuracy)` that
`model.evaluate` reports.  TensorFlow is an external library, so it enters the
model only as this parameter. -/
def KerasEval : Type := Dataset → List (List Float × List Float) → KerasEvalOutput

/-- `fitness_function(weights)`: build a fresh model, install the sliced
weights, compile with categorical cross-entropy loss, evaluate on
`(X_train, y_train)`, and return the loss component (not the accuracy). -/
def fitness_function (ke : KerasEval) (weights : List Float) : Float :=
  (ke Dataset.train (reconstructLoop weights layerDims 0)).loss

/-- The arguments the notebook passes to `mlrose.ContinuousOpt`:
`length=total_weights, fitness_fn=CustomFitness(fitness_function), maximize=False`. -/
structure ContinuousOptProblem (σ κ ρ : Type) where
  length : Nat
  fitness_fn : CustomFitness σ κ ρ
  maximize : Bool

/-- The wrapper `CustomFitness(fitness_function)` — constructed with no
keyword arguments and the default problem type. -/
def fitnessWrapper (ke : KerasEval) : CustomFitness (List Float) Unit Float :=
  ⟨fun s _ => fitness_function ke s, "continuous", ()⟩

/-- `problem = mlrose.ContinuousOpt(length=total_weights,
fitness_fn=fitness_function, maximize=False)`. -/
def problem (ke : KerasEval) : ContinuousOptProblem (List Float) Unit Float :=
  ⟨total_weights, fitnessWrapper ke, false⟩

/-- The algorithm labels the test-evaluation loop iterates over. -/
def algos : List String := ["RHC", "SA", "GA"]

/-- One iteration of the test-evaluation loop: build a fresh model, install
the algorithm's best state by the slicing scheme, and take the accuracy
component of `model.evaluate(X_test, y_test)`. -/
def testAccuracy (ke : KerasEval) (state : List Float) : Float :=
  (ke Dataset.test (testReconstructLoop state layerDims 0)).accuracy

/-- The `test_accuracies` dict, keyed by algorithm in loop order; each entry
is also the figure printed for that algorithm.  `bestState algo` stands for
`results[algo]["state"]`, the best state the mlrose optimizer returned. -/
def test_accuracies (ke : KerasEval) (bestState : String → List Float) :
    List (String × Float) :=
  algos.map (fun a => (a, testAccuracy ke (bestState a)))

/-- Splitting a contiguous slice: the slice of length `m + n` at offset `s`
is the slice of length `m` at `s` followed by the slice of length `n` at `s + m`. -/
theorem drop_take_split {α : Type} (w : List α) (s m n : Nat) :
    (w.drop s).take (m + n) = (w.drop s).take m ++ (w.drop (s + m)).take n := by
  rw [List.take_add, List.drop_drop]

/-- Concatenating the slices the reconstruction loop takes, in order, yields
exactly the contiguous segment of the input it walked over. -/
theorem reconstructLoop_flatten {α : Type} (dims : List (Nat × Nat)) (w : List α) (start : Nat) :
    ((reconstructLoop w dims start).map (fun p => p.1 ++ p.2)).flatten
      = (w.drop start).take ((dims.map (fun d => weightCount d + biasCount d)).sum) := by
  induction dims generalizing start with
  | nil => simp [reconstructLoop]
  | cons d rest ih =>
      simp only [reconstructLoop, List.map_cons, List.flatten_cons, ih, List.sum_cons]
      rw [drop_take_split w start (weightCount d + biasCount d), drop_take_split w start (weightCount d),
        ← Nat.add_assoc, List.append_assoc]

/-- The two reconstruction loops (in `fitness_function` and in the
test-evaluation cell) are the same function. -/
theorem testReconstructLoop_eq {α : Type} (w : List α) (dims : List (Nat × Nat)) (start : Nat) :
    testReconstructLoop w dims start = reconstructLoop w dims start := by
  induction dims generalizing start with
  | nil => rfl
  | cons d rest ih => simp [testReconstructLoop, reconstructLoop, ih]

/-- Claim C3: the wrapped objective evaluates a weight vector to the loss
component of the Keras evaluation on the training set (`fitness_function`),
and the problem is built with `maximize=False`; the wrapper in `problem` is
exactly the one `CustomFitness(fitness_function)` constructs. -/
theorem fitness_is_training_loss_minimized (ke : KerasEval) (w : List Float) :
    (problem ke).fitness_fn.evaluate w
        = (ke Dataset.train (reconstructLoop w layerDims 0)).loss
    ∧ (problem ke).fitness_fn.evaluate w = fitness_function ke w
    ∧ (problem ke).maximize = false
    ∧ customFitnessInitDefault (fun s _ => fitness_function ke s) ()
        = Except.ok (problem ke).fitness_fn := by
  refine ⟨rfl, rfl, rfl, ?_⟩
  simp [customFitnessInitDefault, customFitnessInit, validProblemTypes, problem, fitnessWrapper]

/-- Claim C4: the reconstruction consumes consecutive pairwise-disjoint
slices covering exactly `[0, total_weights)` — concatenating the slices of a
vector of full length gives the vector back, every index below
`total_weights` lies in exactly one slice range and no index beyond does,
and the test-evaluation loop reconstructs by the same scheme. -/
theorem reconstruction_consumes_disjoint_cover :
    (∀ (α : Type) (w : List α), w.length = total_weights →
        ((reconstructLoop w layerDims 0).map (fun p => p.1 ++ p.2)).flatten = w)
    ∧ (∀ i : Nat, countContaining i = if i < total_weights then 1 else 0)
    ∧ (∀ (α : Type) (w : List α) (dims : List (Nat × Nat)) (start : Nat),
        testReconstructLoop w dims start = reconstructLoop w dims start) := by
  refine ⟨?_, ?_, fun α w dims start => testReconstructLoop_eq w dims start⟩
  · intro α w h
    rw [reconstructLoop_flatten, List.drop_zero]
    have ht : (layerDims.map (fun d => weightCount d + biasCount d)).sum = w.length := by
      rw [h]; rfl
    rw [ht, List.take_length]
  · intro i
    have ht : total_weights = 193 := rfl
    rw [ht]
    simp only [countContaining, sliceRanges, sliceRangesAux, layerDims, weightCount, biasCount,
      containsIdx, List.countP_cons, List.countP_nil, Bool.and_eq_true, decide_eq_true_eq]
    norm_num
    split_ifs <;> omega

/-- Witness for C4 at the concrete vector `List.range 193`. -/
theorem reconstruction_consumes_disjoint_cover_witness :
    ((reconstructLoop (List.range 193) layerDims 0).map (fun p => p.1 ++ p.2)).flatten
      = List.range 193 :=
  reconstruction_consumes_disjoint_cover.1 Nat (List.range 193) (by rw [List.length_range]; rfl)

/-- Claim C5: the `length` passed to `ContinuousOpt` is `total_weights`, the
sum over the layers of weight-matrix size plus bias size of the architecture
4 -> 10 -> 10 -> 3, i.e. 193. -/
theorem problem_length_eq_total_params (ke : KerasEval) :
    (problem ke).length = total_weights
    ∧ total_weights = (4 * 10 + 10) + ((10 * 10 + 10) + (10 * 3 + 3))
    ∧ total_weights = 193 :=
  ⟨rfl, by decide, by decide⟩

/-- Claim C6: on an unsupported label the constructor yields only the
exception — no wrapper object with the attributes set is produced. -/
theorem customFitnessInit_rejects_atomically {σ κ ρ : Type} (f : σ → κ → ρ) (kw : κ)
    (pt : String) (h : pt ∉ validProblemTypes) :
    customFitnessInit f pt kw = Except.error "problem_type does not exist."
    ∧ ∀ cf : CustomFitness σ κ ρ, customFitnessInit f pt kw ≠ Except.ok cf := by
  unfold customFitnessInit
  rw [if_pos h]
  exact ⟨rfl, fun cf hc => by cases hc⟩

/-- Witness for C6 at the concrete unsupported label `"foo"`. -/
theorem customFitnessInit_rejects_atomically_witness :
    customFitnessInit (fun (s : Nat) (_ : Unit) => s) "foo" ()
      = Except.error "problem_type does not exist."
    ∧ ∀ cf : CustomFitness Nat Unit Nat,
        customFitnessInit (fun (s : Nat) (_ : Unit) => s) "foo" () ≠ Except.ok cf :=
  customFitnessInit_rejects_atomically (fun s _ => s) () "foo" (by decide)

/-- Claim C7: the test-evaluation loop records, keyed by algorithm in loop
order, the accuracy of the model with that algorithm's best state installed,
evaluated on the test set — one figure per algorithm, three in total. -/
theorem test_accuracies_one_per_algorithm (ke : KerasEval) (bestState : String → List Float) :
    test_accuracies ke bestState =
      [("RHC", (ke Dataset.test (testReconstructLoop (bestState "RHC") layerDims 0)).accuracy),
        ("SA", (ke Dataset.test (testReconstructLoop (bestState "SA") layerDims 0)).accuracy),
        ("GA", (ke Dataset.test (testReconstructLoop (bestState "GA") layerDims 0)).accuracy)]
    ∧ (test_accuracies ke bestState).length = 3 :=
  ⟨rfl, rfl⟩

/-- Claim C8: constructed without an explicit `problem_type`, the wrapper's
`get_prob_type()` returns `"continuous"` (the parameter default), which is
not the `"either"` the class docstring announces. -/
theorem default_prob_type_is_continuous {σ κ ρ : Type} (f : σ → κ → ρ) (kw : κ) :
    ∃ cf, customFitnessInitDefault f kw = Except.ok cf
      ∧ cf.get_prob_type = "continuous"
      ∧ cf.get_prob_type ≠ docstringDefaultProblemType := by
  refine ⟨⟨f, "continuous", kw⟩, ?_, rfl, ?_⟩
  · simp [customFitnessInitDefault, customFitnessInit, validProblemTypes]
  · show ("continuous" : String) ≠ docstringDefaultProblemType
    decide

/-- Claim C9: for every accepted label `pt`, construction succeeds and
`get_prob_type()` returns exactly `pt`. -/
theorem get_prob_type_roundtrip {σ κ ρ : Type} (f : σ → κ → ρ) (kw : κ) (pt : String)
    (h : pt ∈ validProblemTypes) :
    ∃ cf, customFitnessInit f pt kw = Except.ok cf ∧ cf.get_prob_type = pt := by
  refine ⟨⟨f, pt, kw⟩, ?_, rfl⟩
  unfold customFitnessInit
  rw [if_neg (not_not_intro h)]

/-- Witness for C9 at the concrete label `"tsp"`. -/
theorem get_prob_type_roundtrip_witness :
    ∃ cf, customFitnessInit (fun (s : Nat) (_ : Unit) => s) "tsp" () = Except.ok cf
      ∧ cf.get_prob_type = "tsp" :=
  get_prob_type_roundtrip (fun s _ => s) () "tsp" (by decide)

/-- Claim C10: the method call leaves the receiver unchanged — every field
of the post-call object equals the corresponding field before the call — and
a repeated call on the same state returns an equal value. -/
theorem evaluateS_frame {σ κ ρ : Type} (cf : CustomFitness σ κ ρ) (state : σ) :
    (cf.evaluateS state).2 = cf
    ∧ (cf.evaluateS state).2.fitness_fn = cf.fitness_fn
    ∧ (cf.evaluateS state).2.problem_type = cf.problem_type
    ∧ (cf.evaluateS state).2.kwargs = cf.kwargs
    ∧ ((cf.evaluateS state).2.evaluateS state).1 = (cf.evaluateS state).1 :=
  ⟨rfl, rfl, rfl, rfl, rfl⟩

end NNHiive
